import Mathlib

/-!
Verification of the envoy message router (`src/channels/router.go`) and of the
gateway chat protocol, as a shallow embedding in Lean.

Modelling conventions:
* Go strings are byte sequences; we model them as lists of byte values
  (`GoString := List Nat`), so that `len` is byte length and slicing and
  equality are byte-for-byte, exactly as in Go.
* A Go `error` result is `Option Err` (`none` = the `nil` error, success).
* Go maps (`map[string]Channel`) are association lists with overwriting
  insertion (`mapInsert`); iteration follows list order, a fixed but
  arbitrary order, matching the fact that Go map iteration order is
  unspecified.
* External effects (adapter send calls, connect/disconnect attempts) are made
  observable by returning a trace of the calls performed alongside the Go
  return value.
-/

namespace Envoy

/-- A Go string, viewed as its byte sequence. -/
abbrev GoString := List Nat

/-- Byte sequence of an ASCII string literal (all literals used here are ASCII,
where the character code is the byte value). -/
def goStr (s : String) : GoString := s.data.map Char.toNat

/-- `type ChannelType string` — string-typed enumeration (dm, group, channel, thread). -/
abbrev ChannelType := GoString

/-- The fields of `IncomingMessage` used by the routing layer (media list,
timestamp and metadata are carried opaquely by the router and are omitted). -/
structure IncomingMessage where
  ID : GoString
  ChannelName : GoString
  ChatID : GoString
  ChatType : ChannelType
  SenderID : GoString
  SenderName : GoString
  Content : GoString
deriving DecidableEq, Repr

/-- The fields of `OutgoingMessage` set by the routing layer (media, format and
metadata are left at their zero values by every operation modelled here). -/
structure OutgoingMessage where
  Content : GoString
  ReplyTo : GoString
deriving DecidableEq, Repr

/-- `RoutePattern` from router.go: empty `Channels`/`ChatTypes`/prefix means
"no filter". The Go field `Prefix` is called `PrefixStr` here. -/
structure RoutePattern where
  Channels : List GoString
  ChatTypes : List ChannelType
  PrefixStr : GoString
deriving DecidableEq, Repr

/-- `All()` — the zero pattern, matching every message. -/
def All : RoutePattern := { Channels := [], ChatTypes := [], PrefixStr := [] }

/-- `FromChannels(channels...)`. -/
def FromChannels (channels : List GoString) : RoutePattern :=
  { Channels := channels, ChatTypes := [], PrefixStr := [] }

/-- Go slice expression `s[:n]`: defined (as the first `n` bytes) only when
`n ≤ len(s)`; the out-of-bounds panic branch is `none`. -/
def goSliceTo (s : GoString) (n : Nat) : Option GoString :=
  if n ≤ s.length then some (s.take n) else none

/-- `matchPattern` from router.go, translated clause for clause; each
`return false` of the Go code is a `false` branch here.  The slice
`msg.Content[:len(pattern.Prefix)]` is taken under the guard
`len(msg.Content) < len(pattern.Prefix)`, so it is rendered with the total
`List.take` (see `matchPatternChecked` for the version with the explicit
panic branch). -/
def matchPattern (pattern : RoutePattern) (msg : IncomingMessage) : Bool :=
  if 0 < pattern.Channels.length ∧ ¬ pattern.Channels.any (fun ch => ch == msg.ChannelName) then
    false
  else if 0 < pattern.ChatTypes.length ∧ ¬ pattern.ChatTypes.any (fun ct => ct == msg.ChatType) then
    false
  else if pattern.PrefixStr ≠ [] then
    if msg.Content.length < pattern.PrefixStr.length then
      false
    else if msg.Content.take pattern.PrefixStr.length ≠ pattern.PrefixStr then
      false
    else
      true
  else
    true

/-- `matchPattern` with the slice `msg.Content[:len(pattern.Prefix)]` rendered
as the fallible `goSliceTo`: the `none` result is the panic branch of the
embedded indexing. -/
def matchPatternChecked (pattern : RoutePattern) (msg : IncomingMessage) : Option Bool :=
  if 0 < pattern.Channels.length ∧ ¬ pattern.Channels.any (fun ch => ch == msg.ChannelName) then
    some false
  else if 0 < pattern.ChatTypes.length ∧ ¬ pattern.ChatTypes.any (fun ct => ct == msg.ChatType) then
    some false
  else if pattern.PrefixStr ≠ [] then
    if msg.Content.length < pattern.PrefixStr.length then
      some false
    else
      match goSliceTo msg.Content pattern.PrefixStr.length with
      | none => none
      | some sub => if sub ≠ pattern.PrefixStr then some false else some true
  else
    some true

/-- Errors produced by the routing layer.  `adapter` is an error value coming
from an external collaborator (adapter or processor); the other constructors
mirror the `fmt.Errorf` shapes in router.go. -/
inductive Err where
  | adapter (msg : GoString)
  | notFound (channel : GoString)
  | connectWrap (channel : GoString) (e : Err)
  | wrap (channel : GoString) (e : Err)
  | broadcastAgg (errs : List Err)
  | disconnectAgg (errs : List Err)

/-- The `Channel` capability set consumed by the Router (`Name`, `Connect`,
`Disconnect`, `Send`); the `OnMessage`/`OnEvent` registration hooks mutate the
adapter, not the Router, and are not needed by any claim about Router state. -/
structure Channel where
  name : GoString
  send : GoString → OutgoingMessage → Option Err
  connect : Option Err
  disconnect : Option Err

/-- `AgentProcessor.Process(ctx, sessionID, content) (string, error)`. -/
abbrev AgentProcessor := GoString → GoString → Except Err GoString

/-- The Router state touched by the claims: the channel registry
(`map[string]Channel`, as an association list) and the optional agent. -/
structure RouterState where
  channels : List (GoString × Channel)
  agent : Option AgentProcessor

/-- Go map read `m[k]`: the value stored under `k`, if any. -/
def mapLookup : List (GoString × Channel) → GoString → Option Channel
  | [], _ => none
  | (k', v) :: rest, k => if k' = k then some v else mapLookup rest k

/-- Go map write `m[k] = v`: overwrites the entry under `k`, or appends it. -/
def mapInsert : List (GoString × Channel) → GoString → Channel → List (GoString × Channel)
  | [], k, v => [(k, v)]
  | (k', v') :: rest, k, v =>
    if k' = k then (k, v) :: rest else (k', v') :: mapInsert rest k v

/-- Go map delete `delete(m, k)`. -/
def mapDelete (m : List (GoString × Channel)) (k : GoString) : List (GoString × Channel) :=
  m.filter (fun p => p.1 ≠ k)

/-- One adapter `Send(chatID, msg)` call actually performed; operations return
these traces so that "performs no adapter call" is an observable statement. -/
structure SendCall where
  channel : GoString
  chatID : GoString
  msg : OutgoingMessage
deriving DecidableEq, Repr

/-- A message handler, as an explicit state transformer: Go handlers are
effectful (`func(ctx, msg) error`), so we pass their effect on a world of type
`σ` explicitly and return the Go error alongside. -/
def MessageHandler (σ : Type) := IncomingMessage → σ → σ × Option Err

/-- `RouteHandler` from router.go: a pattern-gated handler. -/
structure RouteHandler (σ : Type) where
  Pattern : RoutePattern
  Handler : MessageHandler σ

/-- `OnMessage`: appends a handler to the ordered list. -/
def OnMessage (handlers : List (RouteHandler σ)) (p : RoutePattern) (h : MessageHandler σ) :
    List (RouteHandler σ) :=
  handlers ++ [{ Pattern := p, Handler := h }]

/-- `route` from router.go, over a snapshot of the handler list: each handler
whose pattern matches runs in list order; a handler's error is logged and
dropped (only the state component of its result is kept); the final return
value is always the `nil` error. -/
def route (handlers : List (RouteHandler σ)) (msg : IncomingMessage) (s : σ) :
    σ × Option Err :=
  match handlers with
  | [] => (s, none)
  | h :: rest =>
    if matchPattern h.Pattern msg then
      route rest msg (h.Handler msg s).1
    else
      route rest msg s

/-- `Register`: stores the adapter under its reported name (overwriting any
prior entry); the rewiring of the adapter's inbound hook to `route` mutates the
adapter, not the Router registry.  Returns no error. -/
def Register (st : RouterState) (ch : Channel) : RouterState :=
  { st with channels := mapInsert st.channels ch.name ch }

/-- `Unregister`: removes the entry, no-op if absent. -/
def Unregister (st : RouterState) (name : GoString) : RouterState :=
  { st with channels := mapDelete st.channels name }

/-- `GetChannel`: the Go `(Channel, bool)` pair is an `Option`. -/
def GetChannel (st : RouterState) (name : GoString) : Option Channel :=
  mapLookup st.channels name

/-- `Send` from router.go: registry lookup, not-found error when absent,
otherwise delegate to the adapter and return its outcome unchanged.  The first
component is the trace of adapter calls performed. -/
def Send (st : RouterState) (channelName chatID : GoString) (msg : OutgoingMessage) :
    List SendCall × Option Err :=
  match mapLookup st.channels channelName with
  | none => ([], some (Err.notFound channelName))
  | some ch =>
    ([{ channel := channelName, chatID := chatID, msg := msg }], ch.send chatID msg)

/-- `fmt.Sprintf("%s:%s", msg.ChannelName, msg.ChatID)`. -/
def sessionID (msg : IncomingMessage) : GoString :=
  msg.ChannelName ++ goStr ":" ++ msg.ChatID

/-- The handler returned by `ProcessWithAgent`: no agent — log and succeed;
agent error — return it; agent success — send the response back to the
originating channel/chat with `ReplyTo` set to the inbound id. -/
def ProcessWithAgent (st : RouterState) (msg : IncomingMessage) :
    List SendCall × Option Err :=
  match st.agent with
  | none => ([], none)
  | some agent =>
    match agent (sessionID msg) msg.Content with
    | .error e => ([], some e)
    | .ok response =>
      Send st msg.ChannelName msg.ChatID { Content := response, ReplyTo := msg.ID }

/-- The loop body of `Broadcast`: for each target whose channel is registered,
call the adapter's send and collect every failure (wrapped with the channel
name); unregistered targets are skipped. -/
def broadcastLoop (cs : List (GoString × Channel)) (targets : List (GoString × GoString))
    (msg : OutgoingMessage) : List SendCall × List Err :=
  match targets with
  | [] => ([], [])
  | (name, chatID) :: rest =>
    let r := broadcastLoop cs rest msg
    match mapLookup cs name with
    | none => r
    | some ch =>
      match ch.send chatID msg with
      | none => ({ channel := name, chatID := chatID, msg := msg } :: r.1, r.2)
      | some e =>
        ({ channel := name, chatID := chatID, msg := msg } :: r.1, Err.wrap name e :: r.2)

/-- `Broadcast` from router.go: attempt every registered target, aggregate all
failures into one error, succeed when none occurred. -/
def Broadcast (st : RouterState) (targets : List (GoString × GoString))
    (msg : OutgoingMessage) : List SendCall × Option Err :=
  let r := broadcastLoop st.channels targets msg
  (r.1, if r.2.isEmpty then none else some (Err.broadcastAgg r.2))

/-- `ConnectAll` from router.go: connect adapters in registry order, aborting
with a wrapped error at the first failure.  The first component is the list of
adapters connected by this call. -/
def ConnectAll : List (GoString × Channel) → List GoString × Option Err
  | [] => ([], none)
  | (name, ch) :: rest =>
    match ch.connect with
    | some e => ([], some (Err.connectWrap name e))
    | none =>
      let r := ConnectAll rest
      (name :: r.1, r.2)

/-- The loop body of `DisconnectAll`: attempt every adapter, collecting wrapped
failures.  The first component is the list of adapters attempted. -/
def disconnectLoop : List (GoString × Channel) → List GoString × List Err
  | [] => ([], [])
  | (name, ch) :: rest =>
    let r := disconnectLoop rest
    match ch.disconnect with
    | some e => (name :: r.1, Err.wrap name e :: r.2)
    | none => (name :: r.1, r.2)

/-- `DisconnectAll` from router.go: attempt every adapter, aggregate all
failures into one error, succeed when none occurred. -/
def DisconnectAll (cs : List (GoString × Channel)) : List GoString × Option Err :=
  let r := disconnectLoop cs
  (r.1, if r.2.isEmpty then none else some (Err.disconnectAgg r.2))

/-- Claim-side characterization of Broadcast's attempted calls: one send per
target whose channel name is registered, in target order, skipping the rest. -/
def broadcastAttempts (st : RouterState) (ts : List (GoString × GoString))
    (msg : OutgoingMessage) : List SendCall :=
  ts.filterMap fun t =>
    (mapLookup st.channels t.1).map fun _ => { channel := t.1, chatID := t.2, msg := msg }

/-- Claim-side characterization of Broadcast's collected per-target failures. -/
def broadcastFailures (st : RouterState) (ts : List (GoString × GoString))
    (msg : OutgoingMessage) : List Err :=
  ts.filterMap fun t =>
    match mapLookup st.channels t.1 with
    | none => none
    | some ch => (ch.send t.2 msg).map (Err.wrap t.1)

/-- Gateway wire-protocol frame types. -/
inductive MessageType where
  | chat
  | ping
  | auth
  | subscribe
  | response
  | pong
  | error
  | event
deriving DecidableEq, Repr

/-- The wire-protocol frame fields involved in chat handling (the topic field,
data mapping and timestamp are not touched by the chat branch and are
omitted). -/
structure WireMessage where
  id : GoString
  type : MessageType
  content : GoString
  errText : GoString
deriving DecidableEq, Repr

/-- The gateway's backend-processor boundary, `process(sessionID, content) ->
text|error`, with a failure rendered as its description string. -/
abbrev GwAgent := GoString → GoString → Except GoString GoString

/-- Modelled from the spec: the gateway implementation file is not under
`src/` (only its tests are), so chat-frame handling is taken from the spec's
protocol table — if a backend processor is configured, invoke it with the
connection's session-derived identity and the message content; on success
reply `type=response` with the processor's text and the same id; on failure
reply `type=error` with the failure description and the same id; if no
processor is configured, reply `type=response` with content
"Message received: " followed by the original content (echo mode). -/
def handleChat (agent : Option GwAgent) (sid : GoString) (msg : WireMessage) : WireMessage :=
  match agent with
  | none =>
    { id := msg.id, type := .response,
      content := goStr "Message received: " ++ msg.content, errText := [] }
  | some ap =>
    match ap sid msg.content with
    | .ok t => { id := msg.id, type := .response, content := t, errText := [] }
    | .error e => { id := msg.id, type := .error, content := [], errText := e }

/-- Demo adapter (name "alpha") whose operations all succeed. -/
def chOk : Channel :=
  { name := goStr "alpha", send := fun _ _ => none, connect := none, disconnect := none }

/-- Second demo adapter under the name "alpha", whose send fails. -/
def chAlpha2 : Channel :=
  { name := goStr "alpha", send := fun _ _ => some (Err.adapter (goStr "alpha2 down")),
    connect := none, disconnect := none }

/-- Demo adapter (name "beta") whose operations all fail. -/
def chBad : Channel :=
  { name := goStr "beta", send := fun _ _ => some (Err.adapter (goStr "boom")),
    connect := some (Err.adapter (goStr "no-conn")),
    disconnect := some (Err.adapter (goStr "no-disc")) }

/-- Demo adapter (name "gamma") whose operations all succeed. -/
def chGamma : Channel :=
  { name := goStr "gamma", send := fun _ _ => none, connect := none, disconnect := none }

/-- Demo agent that always succeeds. -/
def agentOk : AgentProcessor := fun _ _ => .ok (goStr "hi there")

/-- Demo agent that always fails. -/
def agentBad : AgentProcessor := fun _ _ => .error (Err.adapter (goStr "llm down"))

/-- Demo inbound message from channel "alpha". -/
def msgDemo : IncomingMessage :=
  { ID := goStr "m1", ChannelName := goStr "alpha", ChatID := goStr "c1",
    ChatType := goStr "dm", SenderID := goStr "u1", SenderName := goStr "alice",
    Content := goStr "hello" }

/-- Demo registry holding only the "alpha" adapter, with no agent. -/
def stNoAgent : RouterState := { channels := [(goStr "alpha", chOk)], agent := none }

/-- Demo registry holding only the "alpha" adapter, with the failing agent. -/
def stBadAgent : RouterState := { channels := [(goStr "alpha", chOk)], agent := some agentBad }

/-- Demo registry holding only the "alpha" adapter, with the succeeding agent. -/
def stOkAgent : RouterState := { channels := [(goStr "alpha", chOk)], agent := some agentOk }

/-- Demo registry with no channels but a succeeding agent. -/
def stOkAgentNoChan : RouterState := { channels := [], agent := some agentOk }

/-- Demo registry for the lifecycle claims: alpha connects, beta fails, gamma
would connect. -/
def demoCs : List (GoString × Channel) :=
  [(goStr "alpha", chOk), (goStr "beta", chBad), (goStr "gamma", chGamma)]

/-- Demo registry holding the "alpha" (send succeeds) and "beta" (send fails)
adapters. -/
def stTwo : RouterState :=
  { channels := [(goStr "alpha", chOk), (goStr "beta", chBad)], agent := none }

/-- Demo broadcast target map: two registered channels and one unregistered. -/
def tgtsDemo : List (GoString × GoString) :=
  [(goStr "alpha", goStr "c1"), (goStr "ghost", goStr "c9"), (goStr "beta", goStr "c2")]

/-- Demo outbound message. -/
def outDemo : OutgoingMessage := { Content := goStr "hi", ReplyTo := [] }

/-- Demo gateway processor that always succeeds. -/
def gwAgentOk : GwAgent := fun _ _ => .ok (goStr "Hello from agent!")

/-- `l.take p.length = p` says exactly that `p` is a byte-for-byte front of `l`. -/
theorem take_length_eq_iff (p c : GoString) : c.take p.length = p ↔ p <+: c := by
  constructor
  · intro h
    have hpre := List.take_prefix p.length c
    rwa [h] at hpre
  · rintro ⟨t, rfl⟩
    exact List.take_left p t

/-- C1: `matchPattern` is conjunctive over the three filters: it is true iff
(no channel filter OR the channel name is listed) AND (no chat-type filter OR
the chat type is listed) AND (no prefix filter OR the content starts
byte-for-byte with the prefix); the empty pattern `All` matches every message,
and content shorter in bytes than the prefix never matches. -/
theorem matchPattern_conjunctive (p : RoutePattern) (m : IncomingMessage) :
    (matchPattern p m = true ↔
      (p.Channels = [] ∨ m.ChannelName ∈ p.Channels) ∧
      (p.ChatTypes = [] ∨ m.ChatType ∈ p.ChatTypes) ∧
      (p.PrefixStr = [] ∨ p.PrefixStr <+: m.Content)) ∧
    matchPattern All m = true ∧
    (m.Content.length < p.PrefixStr.length → matchPattern p m = false) := by
  refine ⟨?_, by rfl, ?_⟩
  · unfold matchPattern
    split_ifs with h1 h2 h3 h4 h5
    · simp only [List.any_eq_true, beq_iff_eq, List.length_pos] at h1
      simp only [false_iff]
      rintro ⟨hA, _, _⟩
      rcases hA with hA | hA
      · exact h1.1 hA
      · exact h1.2 ⟨m.ChannelName, hA, rfl⟩
    · simp only [List.any_eq_true, beq_iff_eq, List.length_pos] at h2
      simp only [false_iff]
      rintro ⟨_, hB, _⟩
      rcases hB with hB | hB
      · exact h2.1 hB
      · exact h2.2 ⟨m.ChatType, hB, rfl⟩
    · simp only [false_iff]
      rintro ⟨_, _, hC⟩
      rcases hC with hC | hC
      · exact h3 hC
      · exact absurd (List.IsPrefix.length_le hC) (by omega)
    · simp only [false_iff]
      rintro ⟨_, _, hC⟩
      rcases hC with hC | hC
      · exact h3 hC
      · exact h5 ((take_length_eq_iff p.PrefixStr m.Content).mpr hC)
    · push_neg at h1 h2 h5
      simp only [List.any_eq_true, beq_iff_eq, List.length_pos, not_lt] at h1 h2
      simp only [true_iff]
      refine ⟨?_, ?_, Or.inr ((take_length_eq_iff p.PrefixStr m.Content).mp h5)⟩
      · by_cases hc : p.Channels = []
        · exact Or.inl hc
        · rcases h1 hc with ⟨x, hx, rfl⟩
          exact Or.inr hx
      · by_cases hc : p.ChatTypes = []
        · exact Or.inl hc
        · rcases h2 hc with ⟨x, hx, rfl⟩
          exact Or.inr hx
    · push_neg at h3
      push_neg at h1 h2
      simp only [List.any_eq_true, beq_iff_eq, List.length_pos] at h1 h2
      simp only [true_iff]
      refine ⟨?_, ?_, Or.inl h3⟩
      · by_cases hc : p.Channels = []
        · exact Or.inl hc
        · rcases h1 hc with ⟨x, hx, rfl⟩
          exact Or.inr hx
      · by_cases hc : p.ChatTypes = []
        · exact Or.inl hc
        · rcases h2 hc with ⟨x, hx, rfl⟩
          exact Or.inr hx
  · intro hshort
    have h3 : p.PrefixStr ≠ [] := by
      intro h
      rw [h] at hshort
      simp at hshort
    unfold matchPattern
    by_cases h1 : 0 < p.Channels.length ∧ ¬ p.Channels.any (fun ch => ch == m.ChannelName)
    · rw [if_pos h1]
    · rw [if_neg h1]
      by_cases h2 : 0 < p.ChatTypes.length ∧ ¬ p.ChatTypes.any (fun ct => ct == m.ChatType)
      · rw [if_pos h2]
      · rw [if_neg h2, if_pos h3, if_pos hshort]

/-- Witness for C1 at a concrete pattern and message. -/
theorem matchPattern_conjunctive_witness :
    matchPattern { Channels := [], ChatTypes := [], PrefixStr := goStr "/start" }
      { ID := goStr "m1", ChannelName := goStr "telegram", ChatID := goStr "c1",
        ChatType := goStr "dm", SenderID := goStr "u1", SenderName := goStr "alice",
        Content := goStr "hi" } = false :=
  (matchPattern_conjunctive _ _).2.2 (by decide)

/-- C9: `matchPattern` is total and never reaches the out-of-bounds branch of
the slice `msg.Content[:len(pattern.Prefix)]`: the checked variant with the
explicit panic branch always returns `some` of the total function's value. -/
theorem matchPattern_no_panic (p : RoutePattern) (m : IncomingMessage) :
    matchPatternChecked p m = some (matchPattern p m) := by
  unfold matchPatternChecked matchPattern
  split_ifs with h1 h2 h3 h4 h5
  · rfl
  · rfl
  · rfl
  · have hg : goSliceTo m.Content p.PrefixStr.length
        = some (m.Content.take p.PrefixStr.length) := by
      unfold goSliceTo
      exact if_pos (Nat.le_of_not_lt h4)
    rw [hg]
    simp [h5]
  · have hg : goSliceTo m.Content p.PrefixStr.length
        = some (m.Content.take p.PrefixStr.length) := by
      unfold goSliceTo
      exact if_pos (Nat.le_of_not_lt h4)
    rw [hg]
    simp [h5]
  · rfl

/-- C2: `route` invokes exactly the handlers whose pattern matches the message,
in insertion order (the final state is the fold of the matching handlers over
the initial state), swallows every handler error, and itself always returns the
`nil` error; `OnMessage` appends, so insertion order is evaluation order. -/
theorem route_dispatch_spec (σ : Type) (handlers : List (RouteHandler σ))
    (msg : IncomingMessage) (s : σ) (p : RoutePattern) (f : MessageHandler σ) :
    route handlers msg s =
      ((handlers.filter fun h => matchPattern h.Pattern msg).foldl
        (fun st h => (h.Handler msg st).1) s, none) ∧
    OnMessage handlers p f = handlers ++ [{ Pattern := p, Handler := f }] := by
  refine ⟨?_, rfl⟩
  induction handlers generalizing s with
  | nil => rfl
  | cons h rest ih =>
    by_cases hc : matchPattern h.Pattern msg
    · simp [route, List.filter_cons, hc, ih]
    · simp [route, List.filter_cons, hc, ih]

/-- C3: the handler returned by `ProcessWithAgent` succeeds and sends nothing
when no agent is configured; invokes the processor with session id
`channelName ++ ":" ++ chatID` and the message content; returns the processor's
error (sending nothing) on failure; and on success with text `t` sends
`{Content := t, ReplyTo := msg.ID}` to the originating channel/chat via `Send`. -/
theorem processWithAgent_spec (st : RouterState) (msg : IncomingMessage) :
    (st.agent = none → ProcessWithAgent st msg = ([], none)) ∧
    (∀ ap e, st.agent = some ap →
      ap (msg.ChannelName ++ goStr ":" ++ msg.ChatID) msg.Content = .error e →
      ProcessWithAgent st msg = ([], some e)) ∧
    (∀ ap t, st.agent = some ap →
      ap (msg.ChannelName ++ goStr ":" ++ msg.ChatID) msg.Content = .ok t →
      ProcessWithAgent st msg =
        Send st msg.ChannelName msg.ChatID { Content := t, ReplyTo := msg.ID }) := by
  refine ⟨?_, ?_, ?_⟩
  · intro h
    simp [ProcessWithAgent, h]
  · intro ap e ha he
    simp only [List.append_assoc] at he
    simp [ProcessWithAgent, sessionID, ha, he]
  · intro ap t ha ht
    simp only [List.append_assoc] at ht
    simp [ProcessWithAgent, sessionID, ha, ht]

/-- Witness for C3 on all three paths. -/
theorem processWithAgent_spec_witness :
    ProcessWithAgent stNoAgent msgDemo = ([], none) ∧
    ProcessWithAgent stBadAgent msgDemo = ([], some (Err.adapter (goStr "llm down"))) ∧
    ProcessWithAgent stOkAgent msgDemo =
      Send stOkAgent msgDemo.ChannelName msgDemo.ChatID
        { Content := goStr "hi there", ReplyTo := msgDemo.ID } :=
  ⟨(processWithAgent_spec stNoAgent msgDemo).1 rfl,
   (processWithAgent_spec stBadAgent msgDemo).2.1 agentBad _ rfl rfl,
   (processWithAgent_spec stOkAgent msgDemo).2.2 agentOk _ rfl rfl⟩

/-- C4: `Send` fails with the not-found error and performs no adapter call
exactly when the channel name is absent; otherwise it performs the one adapter
call and returns the adapter's outcome unchanged. -/
theorem send_spec (st : RouterState) (name chatID : GoString) (msg : OutgoingMessage) :
    (mapLookup st.channels name = none →
      Send st name chatID msg = ([], some (Err.notFound name))) ∧
    (∀ ch, mapLookup st.channels name = some ch →
      Send st name chatID msg =
        ([{ channel := name, chatID := chatID, msg := msg }], ch.send chatID msg)) := by
  constructor
  · intro h
    simp [Send, h]
  · intro ch h
    simp [Send, h]

/-- Witness for C4 on both paths. -/
theorem send_spec_witness :
    Send stNoAgent (goStr "ghost") (goStr "c1") { Content := goStr "x", ReplyTo := [] }
      = ([], some (Err.notFound (goStr "ghost"))) ∧
    Send stNoAgent (goStr "alpha") (goStr "c1") { Content := goStr "x", ReplyTo := [] }
      = ([{ channel := goStr "alpha", chatID := goStr "c1",
            msg := { Content := goStr "x", ReplyTo := [] } }],
         chOk.send (goStr "c1") { Content := goStr "x", ReplyTo := [] }) :=
  ⟨(send_spec stNoAgent _ _ _).1 rfl,
   (send_spec stNoAgent _ _ _).2 chOk rfl⟩

/-- The Broadcast loop computes exactly the claim-side attempt and failure lists. -/
theorem broadcastLoop_eq (st : RouterState) (msg : OutgoingMessage) :
    ∀ ts, broadcastLoop st.channels ts msg = (broadcastAttempts st ts msg, broadcastFailures st ts msg)
  | [] => rfl
  | (name, chatID) :: rest => by
    have ih := broadcastLoop_eq st msg rest
    simp only [broadcastLoop, ih, broadcastAttempts, broadcastFailures, List.filterMap_cons]
    cases hl : mapLookup st.channels name with
    | none => simp
    | some ch =>
      cases hs : ch.send chatID msg with
      | none => simp [hs]
      | some e => simp [hs]

/-- C5: `Broadcast` attempts one send per target whose channel is registered
(skipping unregistered targets without error, attempting every target
regardless of other failures), succeeds exactly when every attempted send
succeeded, and otherwise returns the single aggregate of all per-target
failures. -/
theorem broadcast_spec (st : RouterState) (ts : List (GoString × GoString))
    (msg : OutgoingMessage) :
    Broadcast st ts msg =
      (broadcastAttempts st ts msg,
       if (broadcastFailures st ts msg).isEmpty then none
       else some (Err.broadcastAgg (broadcastFailures st ts msg))) ∧
    ((Broadcast st ts msg).2 = none ↔
      ∀ t ∈ ts, ∀ ch, mapLookup st.channels t.1 = some ch → ch.send t.2 msg = none) := by
  have h1 : Broadcast st ts msg =
      (broadcastAttempts st ts msg,
       if (broadcastFailures st ts msg).isEmpty then none
       else some (Err.broadcastAgg (broadcastFailures st ts msg))) := by
    simp only [Broadcast, broadcastLoop_eq st msg ts]
  refine ⟨h1, ?_⟩
  rw [h1]
  have hB : broadcastFailures st ts msg = [] ↔
      ∀ t ∈ ts, ∀ ch, mapLookup st.channels t.1 = some ch → ch.send t.2 msg = none := by
    unfold broadcastFailures
    rw [List.filterMap_eq_nil_iff]
    constructor
    · intro h t ht ch hch
      have hh := h t ht
      rw [hch] at hh
      simpa using hh
    · intro h t ht
      cases hch : mapLookup st.channels t.1 with
      | none => rfl
      | some ch => simp [h t ht ch hch]
  rw [← hB]
  cases hfe : broadcastFailures st ts msg with
  | nil => simp
  | cons a l => simp

/-- Witness for C5: two registered targets are attempted (the unregistered one
is skipped), and the beta failure is aggregated. -/
theorem broadcast_spec_witness :
    Broadcast stTwo tgtsDemo outDemo =
      (broadcastAttempts stTwo tgtsDemo outDemo,
       if (broadcastFailures stTwo tgtsDemo outDemo).isEmpty then none
       else some (Err.broadcastAgg (broadcastFailures stTwo tgtsDemo outDemo))) ∧
    Broadcast stTwo tgtsDemo outDemo =
      ([{ channel := goStr "alpha", chatID := goStr "c1", msg := outDemo },
        { channel := goStr "beta", chatID := goStr "c2", msg := outDemo }],
       some (Err.broadcastAgg [Err.wrap (goStr "beta") (Err.adapter (goStr "boom"))])) :=
  ⟨(broadcast_spec stTwo tgtsDemo outDemo).1, (broadcast_spec stTwo tgtsDemo outDemo).1⟩

/-- `ConnectAll` over adapters that all connect: every one is connected, in
order, and the result is success. -/
theorem connectAll_ok :
    ∀ (cs : List (GoString × Channel)), (∀ p ∈ cs, p.2.connect = none) →
      ConnectAll cs = (cs.map Prod.fst, none)
  | [], _ => rfl
  | (name, ch) :: rest, h => by
    have hc : ch.connect = none := h (name, ch) (by simp)
    have ih := connectAll_ok rest (fun q hq => h q (by simp [hq]))
    simp [ConnectAll, hc, ih]

/-- `ConnectAll` stops at the first failing adapter: everything before it is
connected, nothing after it is attempted, and the wrapped error is returned. -/
theorem connectAll_fail :
    ∀ (pre : List (GoString × Channel)) (name : GoString) (ch : Channel) (e : Err)
      (post : List (GoString × Channel)),
      (∀ p ∈ pre, p.2.connect = none) → ch.connect = some e →
      ConnectAll (pre ++ (name, ch) :: post) = (pre.map Prod.fst, some (Err.connectWrap name e))
  | [], name, ch, e, post, _, he => by simp [ConnectAll, he]
  | (n1, c1) :: pre', name, ch, e, post, hpre, he => by
    have hc : c1.connect = none := hpre (n1, c1) (by simp)
    have ih := connectAll_fail pre' name ch e post (fun q hq => hpre q (by simp [hq])) he
    simp [ConnectAll, hc, ih]

/-- The DisconnectAll loop attempts every adapter, in order. -/
theorem disconnectLoop_names :
    ∀ cs : List (GoString × Channel), (disconnectLoop cs).1 = cs.map Prod.fst
  | [] => rfl
  | (name, ch) :: rest => by
    have ih := disconnectLoop_names rest
    cases hd : ch.disconnect <;> simp [disconnectLoop, hd, ih]

/-- The DisconnectAll loop collects exactly the wrapped per-adapter failures. -/
theorem disconnectLoop_errs :
    ∀ cs : List (GoString × Channel),
      (disconnectLoop cs).2 = cs.filterMap (fun p => (p.2.disconnect).map (Err.wrap p.1))
  | [] => rfl
  | (name, ch) :: rest => by
    have ih := disconnectLoop_errs rest
    cases hd : ch.disconnect <;> simp [disconnectLoop, hd, ih, List.filterMap_cons]

/-- C6: `ConnectAll` succeeds when every adapter connects; it aborts at the
first connect failure, leaving earlier adapters connected and attempting no
later one.  `DisconnectAll` attempts every adapter regardless of failures,
succeeds exactly when all disconnects succeed, and otherwise aggregates all
the collected failures into one error. -/
theorem connect_disconnect_spec (cs : List (GoString × Channel)) :
    ((∀ p ∈ cs, p.2.connect = none) → ConnectAll cs = (cs.map Prod.fst, none)) ∧
    (∀ pre name ch e post, cs = pre ++ (name, ch) :: post →
      (∀ p ∈ pre, p.2.connect = none) → ch.connect = some e →
      ConnectAll cs = (pre.map Prod.fst, some (Err.connectWrap name e))) ∧
    (DisconnectAll cs).1 = cs.map Prod.fst ∧
    ((DisconnectAll cs).2 = none ↔ ∀ p ∈ cs, p.2.disconnect = none) ∧
    ((disconnectLoop cs).2 ≠ [] →
      (DisconnectAll cs).2 = some (Err.disconnectAgg (disconnectLoop cs).2)) ∧
    (disconnectLoop cs).2 = cs.filterMap (fun p => (p.2.disconnect).map (Err.wrap p.1)) := by
  refine ⟨connectAll_ok cs, ?_, ?_, ?_, ?_, disconnectLoop_errs cs⟩
  · intro pre name ch e post hcs hpre he
    rw [hcs]
    exact connectAll_fail pre name ch e post hpre he
  · simp only [DisconnectAll]
    exact disconnectLoop_names cs
  · have hA : (DisconnectAll cs).2 = none ↔ (disconnectLoop cs).2 = [] := by
      simp only [DisconnectAll]
      cases hfe : (disconnectLoop cs).2 with
      | nil => simp
      | cons a l => simp
    rw [hA, disconnectLoop_errs cs, List.filterMap_eq_nil_iff]
    simp only [Option.map_eq_none']
  · intro hne
    simp only [DisconnectAll]
    cases hfe : (disconnectLoop cs).2 with
    | nil => exact absurd hfe hne
    | cons a l => simp

/-- Witness for C6: beta's connect failure aborts after alpha (gamma is never
attempted), and beta's disconnect failure is aggregated. -/
theorem connect_disconnect_spec_witness :
    ConnectAll demoCs
      = ([goStr "alpha"], some (Err.connectWrap (goStr "beta") (Err.adapter (goStr "no-conn")))) ∧
    (DisconnectAll demoCs).2 = some (Err.disconnectAgg (disconnectLoop demoCs).2) :=
  ⟨(connect_disconnect_spec demoCs).2.1 [(goStr "alpha", chOk)] (goStr "beta") chBad _
      [(goStr "gamma", chGamma)] rfl
      (by intro p hp; rw [List.mem_singleton] at hp; subst hp; rfl) rfl,
   (connect_disconnect_spec demoCs).2.2.2.2.1
      (by simp [disconnectLoop, demoCs, chOk, chBad, chGamma])⟩

/-- Inserting twice under the same key is the same as inserting the last value once. -/
theorem mapInsert_mapInsert :
    ∀ (m : List (GoString × Channel)) (k : GoString) (v w : Channel),
      mapInsert (mapInsert m k v) k w = mapInsert m k w
  | [], k, v, w => by simp [mapInsert]
  | (k', v') :: rest, k, v, w => by
    by_cases hk : k' = k
    · simp [mapInsert, hk]
    · simp [mapInsert, hk, mapInsert_mapInsert rest k v w]

/-- Lookup after insert under the same key finds the inserted value. -/
theorem mapLookup_mapInsert :
    ∀ (m : List (GoString × Channel)) (k : GoString) (v : Channel),
      mapLookup (mapInsert m k v) k = some v
  | [], k, v => by simp [mapInsert, mapLookup]
  | (k', v') :: rest, k, v => by
    by_cases hk : k' = k
    · simp [mapInsert, mapLookup, hk]
    · simp [mapInsert, mapLookup, hk, mapLookup_mapInsert rest k v]

/-- A key of the inserted map is an old key or the inserted key. -/
theorem mem_keys_mapInsert :
    ∀ (m : List (GoString × Channel)) (k : GoString) (v : Channel) (x : GoString),
      x ∈ (mapInsert m k v).map Prod.fst → x ∈ m.map Prod.fst ∨ x = k
  | [], k, v, x => by
    intro h
    simp only [mapInsert, List.map_cons, List.map_nil, List.mem_singleton] at h
    exact Or.inr h
  | (k', v') :: rest, k, v, x => by
    intro h
    by_cases hk : k' = k
    · simp only [mapInsert, if_pos hk, List.map_cons, List.mem_cons] at h
      rcases h with h | h
      · exact Or.inr h
      · exact Or.inl (List.mem_cons.mpr (Or.inr h))
    · simp only [mapInsert, if_neg hk, List.map_cons, List.mem_cons] at h
      rcases h with h | h
      · exact Or.inl (List.mem_cons.mpr (Or.inl h))
      · rcases mem_keys_mapInsert rest k v x h with h' | h'
        · exact Or.inl (List.mem_cons.mpr (Or.inr h'))
        · exact Or.inr h'

/-- Insertion preserves key uniqueness. -/
theorem keys_nodup_mapInsert :
    ∀ (m : List (GoString × Channel)) (k : GoString) (v : Channel),
      (m.map Prod.fst).Nodup → ((mapInsert m k v).map Prod.fst).Nodup
  | [], k, v, _ => by simp [mapInsert]
  | (k', v') :: rest, k, v, hnd => by
    simp only [List.map_cons, List.nodup_cons] at hnd
    by_cases hk : k' = k
    · simp only [mapInsert, if_pos hk, List.map_cons, List.nodup_cons]
      exact ⟨hk ▸ hnd.1, hnd.2⟩
    · simp only [mapInsert, if_neg hk, List.map_cons, List.nodup_cons]
      refine ⟨?_, keys_nodup_mapInsert rest k v hnd.2⟩
      intro hmem
      rcases mem_keys_mapInsert rest k v k' hmem with h' | h'
      · exact hnd.1 h'
      · exact hk h'

/-- A map without the key has no entry passing the key filter. -/
theorem filter_keys_not_mem :
    ∀ (m : List (GoString × Channel)) (k : GoString), k ∉ m.map Prod.fst →
      m.filter (fun p => p.1 == k) = []
  | [], _, _ => rfl
  | (k', v') :: rest, k, h => by
    simp only [List.map_cons, List.mem_cons, not_or] at h
    have hne : (k' == k) = false := beq_eq_false_iff_ne.mpr (fun hh => h.1 hh.symm)
    simp [List.filter_cons, hne, filter_keys_not_mem rest k h.2]

/-- With unique keys, the entries under the inserted key are exactly the
inserted pair. -/
theorem filter_mapInsert :
    ∀ (m : List (GoString × Channel)) (k : GoString) (v : Channel),
      (m.map Prod.fst).Nodup →
      (mapInsert m k v).filter (fun p => p.1 == k) = [(k, v)]
  | [], k, v, _ => by simp [mapInsert, List.filter_cons]
  | (k', v') :: rest, k, v, hnd => by
    simp only [List.map_cons, List.nodup_cons] at hnd
    by_cases hk : k' = k
    · have h0 : k ∉ rest.map Prod.fst := hk ▸ hnd.1
      simp only [mapInsert, if_pos hk, List.filter_cons]
      simp [filter_keys_not_mem rest k h0]
    · have hne : (k' == k) = false := beq_eq_false_iff_ne.mpr hk
      simp only [mapInsert, if_neg hk, List.filter_cons, hne]
      simp [filter_mapInsert rest k v hnd.2]

/-- C7: registering `a` then `b` under the same reported name leaves exactly
one registry entry under that name, holding `b`; `GetChannel` then returns
`b`, `Send` delegates to `b`, registration itself can produce no error (its Go
return type is empty, reflected by `Register` returning only the new state),
and key uniqueness is preserved. -/
theorem register_last_wins (st : RouterState) (a b : Channel) (hname : a.name = b.name)
    (hnd : (st.channels.map Prod.fst).Nodup) :
    ((Register (Register st a) b).channels.filter (fun p => p.1 == b.name) = [(b.name, b)]) ∧
    GetChannel (Register (Register st a) b) b.name = some b ∧
    (∀ chatID m, Send (Register (Register st a) b) b.name chatID m =
      ([{ channel := b.name, chatID := chatID, msg := m }], b.send chatID m)) ∧
    (((Register (Register st a) b).channels.map Prod.fst).Nodup) := by
  have hch : (Register (Register st a) b).channels = mapInsert st.channels b.name b := by
    simp [Register, hname, mapInsert_mapInsert]
  refine ⟨?_, ?_, ?_, ?_⟩
  · rw [hch]
    exact filter_mapInsert st.channels b.name b hnd
  · simp [GetChannel, hch, mapLookup_mapInsert]
  · intro chatID m
    simp [Send, hch, mapLookup_mapInsert]
  · rw [hch]
    exact keys_nodup_mapInsert st.channels b.name b hnd

/-- Witness for C7: registering `chOk` then `chAlpha2` (both named "alpha")
leaves exactly the `chAlpha2` entry, reachable via `GetChannel`. -/
theorem register_last_wins_witness :
    ((Register (Register { channels := [], agent := none } chOk) chAlpha2).channels.filter
        (fun p => p.1 == chAlpha2.name) = [(chAlpha2.name, chAlpha2)]) ∧
    GetChannel (Register (Register { channels := [], agent := none } chOk) chAlpha2)
      chAlpha2.name = some chAlpha2 :=
  ⟨(register_last_wins { channels := [], agent := none } chOk chAlpha2 rfl (by simp)).1,
   (register_last_wins { channels := [], agent := none } chOk chAlpha2 rfl (by simp)).2.1⟩

/-- C8: a chat frame with id `i` and content `c` yields exactly one reply
frame: with no processor, a response echoing "Message received: " ++ c under
the same id; with a processor, a response carrying the processor's text on
success, or an error frame carrying the failure description, always echoing
the id. -/
theorem gateway_chat_reply_spec (sid i c : GoString) :
    (handleChat none sid { id := i, type := .chat, content := c, errText := [] } =
      { id := i, type := .response, content := goStr "Message received: " ++ c,
        errText := [] }) ∧
    (∀ ap t, ap sid c = .ok t →
      handleChat (some ap) sid { id := i, type := .chat, content := c, errText := [] } =
        { id := i, type := .response, content := t, errText := [] }) ∧
    (∀ ap e, ap sid c = .error e →
      handleChat (some ap) sid { id := i, type := .chat, content := c, errText := [] } =
        { id := i, type := .error, content := [], errText := e }) := by
  refine ⟨rfl, ?_, ?_⟩
  · intro ap t h
    simp [handleChat, h]
  · intro ap e h
    simp [handleChat, h]

/-- Witness for C8: the spec's two concrete test vectors. -/
theorem gateway_chat_reply_spec_witness :
    handleChat none (goStr "client-1")
      { id := goStr "chat-1", type := .chat, content := goStr "Hello!", errText := [] } =
      { id := goStr "chat-1", type := .response,
        content := goStr "Message received: Hello!", errText := [] } ∧
    handleChat (some gwAgentOk) (goStr "client-1")
      { id := goStr "chat-1", type := .chat, content := goStr "Hello, agent!", errText := [] } =
      { id := goStr "chat-1", type := .response,
        content := goStr "Hello from agent!", errText := [] } :=
  ⟨(gateway_chat_reply_spec (goStr "client-1") (goStr "chat-1") (goStr "Hello!")).1,
   (gateway_chat_reply_spec (goStr "client-1") (goStr "chat-1")
      (goStr "Hello, agent!")).2.1 gwAgentOk _ rfl⟩

/-- C10: when the processor succeeds, the handler's result is exactly the
outcome of the reply `Send`; in particular when the originating channel is no
longer registered, the `Send` not-found failure becomes the handler's own
error. -/
theorem processWithAgent_send_outcome (st : RouterState) (msg : IncomingMessage)
    (ap : AgentProcessor) (t : GoString) (ha : st.agent = some ap)
    (ht : ap (msg.ChannelName ++ goStr ":" ++ msg.ChatID) msg.Content = .ok t) :
    ProcessWithAgent st msg =
      Send st msg.ChannelName msg.ChatID { Content := t, ReplyTo := msg.ID } ∧
    (mapLookup st.channels msg.ChannelName = none →
      ProcessWithAgent st msg = ([], some (Err.notFound msg.ChannelName))) := by
  have h1 : ProcessWithAgent st msg =
      Send st msg.ChannelName msg.ChatID { Content := t, ReplyTo := msg.ID } := by
    simp only [List.append_assoc] at ht
    simp [ProcessWithAgent, sessionID, ha, ht]
  refine ⟨h1, ?_⟩
  intro hnone
  rw [h1]
  simp [Send, hnone]

/-- Witness for C10: with the agent succeeding but no channel registered, the
handler's error is the not-found failure of the reply send. -/
theorem processWithAgent_send_outcome_witness :
    ProcessWithAgent stOkAgentNoChan msgDemo = ([], some (Err.notFound (goStr "alpha"))) :=
  (processWithAgent_send_outcome stOkAgentNoChan msgDemo agentOk (goStr "hi there")
    rfl rfl).2 rfl

end Envoy
